import Mathlib

/-!
Shallow embedding of the device-level resource and execution manager in
`src/dxvk/dxvk_device.cpp` (class `DxvkDevice`), together with theorems
settling the specification claims about it.

Machine integers are modelled as `Nat` with an explicit `% 2^w` where the
width matters: the stat counters are 64-bit accumulators, and
`getCurrentFrameId` returns a `uint32_t`.
-/

namespace Dxvk

/-- The subset of `VkResult` values relevant to the submission and
presentation paths.  `VK_SUCCESS` is the unique success value; the error
codes stand for the non-success statuses a queue submission or present
call can return. -/
inductive VkResult
  | VK_SUCCESS
  | VK_ERROR_DEVICE_LOST
  | VK_ERROR_OUT_OF_DATE_KHR
  | VK_ERROR_OUT_OF_DEVICE_MEMORY
  deriving DecidableEq, Repr

open VkResult

/-- Vulkan pipeline stage flag bit: vertex shader (bit 3). -/
def VK_PIPELINE_STAGE_VERTEX_SHADER_BIT : Nat := 0x00000008

/-- Vulkan pipeline stage flag bit: tessellation control shader (bit 4). -/
def VK_PIPELINE_STAGE_TESSELLATION_CONTROL_SHADER_BIT : Nat := 0x00000010

/-- Vulkan pipeline stage flag bit: tessellation evaluation shader (bit 5). -/
def VK_PIPELINE_STAGE_TESSELLATION_EVALUATION_SHADER_BIT : Nat := 0x00000020

/-- Vulkan pipeline stage flag bit: geometry shader (bit 6). -/
def VK_PIPELINE_STAGE_GEOMETRY_SHADER_BIT : Nat := 0x00000040

/-- Vulkan pipeline stage flag bit: fragment shader (bit 7). -/
def VK_PIPELINE_STAGE_FRAGMENT_SHADER_BIT : Nat := 0x00000080

/-- Vulkan pipeline stage flag bit: compute shader (bit 11). -/
def VK_PIPELINE_STAGE_COMPUTE_SHADER_BIT : Nat := 0x00000800

/-- The two core device feature flags `getShaderPipelineStages` inspects
(`m_features.core.features.geometryShader` and
`m_features.core.features.tessellationShader`).  `VkBool32` feature flags
are modelled as `Bool` (non-zero means enabled). -/
structure DxvkDeviceFeatures where
  geometryShader : Bool
  tessellationShader : Bool
  deriving DecidableEq, Repr

/-- Embedding of `DxvkDevice::getShaderPipelineStages`: starts from the
compute, vertex and fragment stage bits, adds the geometry bit when the
geometry-shader feature is enabled and both tessellation bits when the
tessellation-shader feature is enabled. -/
def getShaderPipelineStages (features : DxvkDeviceFeatures) : Nat :=
  let result := VK_PIPELINE_STAGE_COMPUTE_SHADER_BIT
            ||| VK_PIPELINE_STAGE_VERTEX_SHADER_BIT
            ||| VK_PIPELINE_STAGE_FRAGMENT_SHADER_BIT
  let result := if features.geometryShader
    then result ||| VK_PIPELINE_STAGE_GEOMETRY_SHADER_BIT
    else result
  let result := if features.tessellationShader
    then result ||| VK_PIPELINE_STAGE_TESSELLATION_CONTROL_SHADER_BIT
              ||| VK_PIPELINE_STAGE_TESSELLATION_EVALUATION_SHADER_BIT
    else result
  result

/-- The stat counter identifiers used by `DxvkDevice` (the members of
`DxvkStatCounter` this file touches). -/
inductive DxvkStatCounter
  | MemoryAllocated
  | MemoryUsed
  | PipeCountGraphics
  | PipeCountCompute
  | QueueSubmitCount
  | QueuePresentCount
  deriving DecidableEq, Repr

/-- Modelled from the spec: `DxvkStatCounters` (declared in
`dxvk_stats.h`, which is not part of the given source) is a mapping from
counter identifier to a 64-bit accumulator; `merge` is additive and
`addCtr` adds a delta to one counter.  Values are kept reduced
modulo `2^64`. -/
structure DxvkStatCounters where
  memoryAllocated : Nat
  memoryUsed : Nat
  pipeCountGraphics : Nat
  pipeCountCompute : Nat
  queueSubmitCount : Nat
  queuePresentCount : Nat
  deriving DecidableEq, Repr

/-- Read one counter of a counter set. -/
def getCtr (c : DxvkStatCounters) : DxvkStatCounter → Nat
  | DxvkStatCounter.MemoryAllocated => c.memoryAllocated
  | DxvkStatCounter.MemoryUsed => c.memoryUsed
  | DxvkStatCounter.PipeCountGraphics => c.pipeCountGraphics
  | DxvkStatCounter.PipeCountCompute => c.pipeCountCompute
  | DxvkStatCounter.QueueSubmitCount => c.queueSubmitCount
  | DxvkStatCounter.QueuePresentCount => c.queuePresentCount

/-- Add a delta to one counter of a counter set (64-bit accumulator). -/
def addCtr (c : DxvkStatCounters) (ctr : DxvkStatCounter) (n : Nat) : DxvkStatCounters :=
  match ctr with
  | DxvkStatCounter.MemoryAllocated =>
      { c with memoryAllocated := (c.memoryAllocated + n) % 2^64 }
  | DxvkStatCounter.MemoryUsed =>
      { c with memoryUsed := (c.memoryUsed + n) % 2^64 }
  | DxvkStatCounter.PipeCountGraphics =>
      { c with pipeCountGraphics := (c.pipeCountGraphics + n) % 2^64 }
  | DxvkStatCounter.PipeCountCompute =>
      { c with pipeCountCompute := (c.pipeCountCompute + n) % 2^64 }
  | DxvkStatCounter.QueueSubmitCount =>
      { c with queueSubmitCount := (c.queueSubmitCount + n) % 2^64 }
  | DxvkStatCounter.QueuePresentCount =>
      { c with queuePresentCount := (c.queuePresentCount + n) % 2^64 }

/-- Additive merge of two counter sets (every entry of `other` is added
into `c`). -/
def mergeCtrs (c other : DxvkStatCounters) : DxvkStatCounters where
  memoryAllocated := (c.memoryAllocated + other.memoryAllocated) % 2^64
  memoryUsed := (c.memoryUsed + other.memoryUsed) % 2^64
  pipeCountGraphics := (c.pipeCountGraphics + other.pipeCountGraphics) % 2^64
  pipeCountCompute := (c.pipeCountCompute + other.pipeCountCompute) % 2^64
  queueSubmitCount := (c.queueSubmitCount + other.queueSubmitCount) % 2^64
  queuePresentCount := (c.queuePresentCount + other.queuePresentCount) % 2^64

/-- The all-zero counter set. -/
def zeroCtrs : DxvkStatCounters := ⟨0, 0, 0, 0, 0, 0⟩

/-- Modelled from the spec: the fixed standard staging-buffer threshold
(`DefaultStagingBufferSize`, declared in `dxvk_device.h`, which is not
part of the given source).  Every claim about it is relative to its
value; the spec's worked scenario uses 65536. -/
def DefaultStagingBufferSize : Nat := 65536

/-- Modelled from the spec: a staging buffer carries a size fixed at
creation and a reset/clear operation restoring it to a reusable
empty/writable state (`isEmpty`).  The class itself is declared outside
the given source. -/
structure DxvkStagingBuffer where
  size : Nat
  isEmpty : Bool
  deriving DecidableEq, Repr

/-- Modelled from the spec: `DxvkStagingBuffer::reset` restores the
buffer to its empty/writable state. -/
def stagingBufferReset (b : DxvkStagingBuffer) : DxvkStagingBuffer :=
  { b with isEmpty := true }

/-- A command list as the device sees it: its accumulated stat counters
(read by `commandList->statCounters()`), the status its hardware
submission returns (the value of `commandList->submit(...)`, treated as
an oracle fixed per list), and whether the list is in the reset,
reusable state. -/
structure DxvkCommandList where
  statCounters : DxvkStatCounters
  submitResult : VkResult
  isReset : Bool
  deriving DecidableEq, Repr

/-- A fresh command list, as constructed by
`new DxvkCommandList(this, m_adapter->graphicsQueueFamily())`: empty
counters, reset state. -/
def freshCommandList : DxvkCommandList :=
  { statCounters := zeroCtrs, submitResult := VK_SUCCESS, isReset := true }

/-- A descriptor pool as the device sees it: only its reset state is
relevant to the claims. -/
structure DxvkDescriptorPool where
  isReset : Bool
  deriving DecidableEq, Repr

/-- A fresh descriptor pool, as constructed by
`new DxvkDescriptorPool(m_vkd)`. -/
def freshDescriptorPool : DxvkDescriptorPool := { isReset := true }

/-- Observable events of one device operation, in program order: lock
acquisitions and releases, counter updates, the hardware submit and
present calls, the hand-off to the submission queue (completion
tracker), error logging, and the staging-recycler insert and the buffer
reset inside `recycleStagingBuffer`. -/
inductive DeviceEvent
  | acquireQueueLock
  | releaseQueueLock
  | acquireStatLock
  | releaseStatLock
  | mergeCounters
  | addCounter (ctr : DxvkStatCounter) (n : Nat)
  | hwSubmit (waitSync wakeSync : Nat)
  | hwPresent (semaphore : Nat)
  | trackSubmission
  | logError (status : VkResult)
  | stagingReturnToPool
  | stagingReset
  deriving DecidableEq, Repr

/-- The mutable state of a `DxvkDevice` relevant to the claims: the
running stat counters (`m_statCounters`), the three recyclers
(`m_recycledCommandLists`, `m_recycledDescriptorPools`,
`m_recycledStagingBuffers`, each modelled as a LIFO free list), and the
set of in-flight lists handed to `m_submissionQueue`. -/
structure DeviceState where
  statCounters : DxvkStatCounters
  recycledCommandLists : List DxvkCommandList
  recycledDescriptorPools : List DxvkDescriptorPool
  recycledStagingBuffers : List DxvkStagingBuffer
  trackedSubmissions : List DxvkCommandList
  deriving DecidableEq, Repr

/-- The device state right after construction: zero counters, empty
recyclers, nothing in flight. -/
def initialDeviceState : DeviceState :=
  { statCounters := zeroCtrs
    recycledCommandLists := []
    recycledDescriptorPools := []
    recycledStagingBuffers := []
    trackedSubmissions := [] }

/-- Result of one submit/present operation: the successor device state,
the value the operation returns to its caller (`none` when the source
function is declared `void`, `some status` when it returns a
`VkResult`), and the event trace in program order. -/
structure DeviceOutput where
  state : DeviceState
  returnedStatus : Option VkResult
  trace : List DeviceEvent
  deriving DecidableEq, Repr

/-- Embedding of the allocation path of `DxvkDevice::allocStagingBuffer`
after the recycler came up empty (or was skipped): a fresh
`DxvkStagingBuffer` over a buffer whose `info.size` starts as the
requested size and is floored to `DefaultStagingBufferSize` when it is
below it. -/
def freshStagingBuffer (size : Nat) : DxvkStagingBuffer :=
  let infoSize := size
  let infoSize := if infoSize < DefaultStagingBufferSize then DefaultStagingBufferSize
                  else infoSize
  { size := infoSize, isEmpty := true }

/-- Embedding of `DxvkDevice::allocStagingBuffer`: when the requested
size is at most `DefaultStagingBufferSize`, first try to retrieve a
recycled buffer (`m_recycledStagingBuffers.retrieveObject()`, free-list
semantics modelled as taking the list head) and return it if one is
present; otherwise fall through to a fresh allocation.  Returns the
updated recycler contents and the buffer handed to the caller. -/
def allocStagingBuffer (pool : List DxvkStagingBuffer) (size : Nat) :
    List DxvkStagingBuffer × DxvkStagingBuffer :=
  if size ≤ DefaultStagingBufferSize then
    match pool with
    | buffer :: rest => (rest, buffer)
    | [] => ([], freshStagingBuffer size)
  else
    (pool, freshStagingBuffer size)

/-- Embedding of `DxvkDevice::recycleStagingBuffer`: when the buffer's
size equals `DefaultStagingBufferSize` it is inserted into the recycler
(`returnObject`) and then reset — in that order, as in the source, where
`m_recycledStagingBuffers.returnObject(buffer)` precedes
`buffer->reset()`; any other size is dropped and the recycler is left
unchanged.  Because the recycler shares the `Rc` reference with the
caller, the pooled entry ends up reset once the function returns, but
the event trace records the insertion happening first. -/
def recycleStagingBuffer (pool : List DxvkStagingBuffer) (buffer : DxvkStagingBuffer) :
    List DxvkStagingBuffer × List DeviceEvent :=
  if buffer.size = DefaultStagingBufferSize then
    (stagingBufferReset buffer :: pool,
     [DeviceEvent.stagingReturnToPool, DeviceEvent.stagingReset])
  else
    (pool, [])

/-- Embedding of `DxvkDevice::createCommandList`: retrieve a recycled
list if the recycler holds one, otherwise construct a fresh one.
Returns the updated recycler contents and the list handed to the
caller. -/
def createCommandList (pool : List DxvkCommandList) :
    List DxvkCommandList × DxvkCommandList :=
  match pool with
  | cmdList :: rest => (rest, cmdList)
  | [] => ([], freshCommandList)

/-- Embedding of `DxvkDevice::recycleCommandList`: unconditionally
return the list to the recycler. -/
def recycleCommandList (pool : List DxvkCommandList) (cmdList : DxvkCommandList) :
    List DxvkCommandList :=
  cmdList :: pool

/-- Embedding of `DxvkDevice::createDescriptorPool`: retrieve a recycled
pool if the recycler holds one, otherwise construct a fresh one. -/
def createDescriptorPool (pool : List DxvkDescriptorPool) :
    List DxvkDescriptorPool × DxvkDescriptorPool :=
  match pool with
  | descriptorPool :: rest => (rest, descriptorPool)
  | [] => ([], freshDescriptorPool)

/-- Embedding of `DxvkDevice::recycleDescriptorPool`: unconditionally
return the pool to the recycler. -/
def recycleDescriptorPool (pool : List DxvkDescriptorPool)
    (descriptorPool : DxvkDescriptorPool) : List DxvkDescriptorPool :=
  descriptorPool :: pool

/-- Embedding of `DxvkDevice::presentImage`.  `status` is the value the
presenter's `presentImage(semaphore)` call returns.  The function takes
`m_submissionLock` (the queue-access lock), issues the present call, and
returns the status at once when it is not `VK_SUCCESS`; on success it
takes `m_statLock` and increments `QueuePresentCount` by 1.  Both
`lock_guard`s unwind at the return, innermost first. -/
def presentImage (st : DeviceState) (status : VkResult) (semaphore : Nat) : DeviceOutput :=
  if status ≠ VK_SUCCESS then
    { state := st
      returnedStatus := some status
      trace := [DeviceEvent.acquireQueueLock, DeviceEvent.hwPresent semaphore,
                DeviceEvent.releaseQueueLock] }
  else
    { state := { st with
        statCounters := addCtr st.statCounters DxvkStatCounter.QueuePresentCount 1 }
      returnedStatus := some status
      trace := [DeviceEvent.acquireQueueLock, DeviceEvent.hwPresent semaphore,
                DeviceEvent.acquireStatLock,
                DeviceEvent.addCounter DxvkStatCounter.QueuePresentCount 1,
                DeviceEvent.releaseStatLock, DeviceEvent.releaseQueueLock] }

/-- Embedding of `DxvkDevice::submitCommandList` (declared `void` in the
source, hence `returnedStatus = none`).  Inside a block holding
`m_submissionLock` and then `m_statLock`, it merges the list's counters
into `m_statCounters`, increments `QueueSubmitCount` by 1, and issues
the hardware submission; both locks unwind at the block end, innermost
first.  After the block, a successful status hands the list to
`m_submissionQueue.submit`, any other status is logged. -/
def submitCommandList (st : DeviceState) (commandList : DxvkCommandList)
    (waitSync wakeSync : Nat) : DeviceOutput :=
  let counters := addCtr (mergeCtrs st.statCounters commandList.statCounters)
      DxvkStatCounter.QueueSubmitCount 1
  let status := commandList.submitResult
  let blockTrace : List DeviceEvent :=
    [DeviceEvent.acquireQueueLock, DeviceEvent.acquireStatLock,
     DeviceEvent.mergeCounters,
     DeviceEvent.addCounter DxvkStatCounter.QueueSubmitCount 1,
     DeviceEvent.hwSubmit waitSync wakeSync,
     DeviceEvent.releaseStatLock, DeviceEvent.releaseQueueLock]
  if status = VK_SUCCESS then
    { state := { st with
        statCounters := counters
        trackedSubmissions := commandList :: st.trackedSubmissions }
      returnedStatus := none
      trace := blockTrace ++ [DeviceEvent.trackSubmission] }
  else
    { state := { st with statCounters := counters }
      returnedStatus := none
      trace := blockTrace ++ [DeviceEvent.logError status] }

/-- Embedding of `DxvkDevice::getStatCounters`: build the live snapshot
from the memory allocator's and pipeline manager's figures (passed in as
oracles), then merge the running totals into it under `m_statLock`. -/
def getStatCounters (st : DeviceState)
    (memAllocated memUsed numGraphicsPipelines numComputePipelines : Nat) :
    DxvkStatCounters × List DeviceEvent :=
  let result : DxvkStatCounters :=
    { memoryAllocated := memAllocated % 2^64
      memoryUsed := memUsed % 2^64
      pipeCountGraphics := numGraphicsPipelines % 2^64
      pipeCountCompute := numComputePipelines % 2^64
      queueSubmitCount := 0
      queuePresentCount := 0 }
  (mergeCtrs result st.statCounters,
   [DeviceEvent.acquireStatLock, DeviceEvent.mergeCounters,
    DeviceEvent.releaseStatLock])

/-- Embedding of `DxvkDevice::getCurrentFrameId`: reads the
`QueuePresentCount` counter and returns it as a `uint32_t`, so the
64-bit accumulator is truncated modulo `2^32`. -/
def getCurrentFrameId (st : DeviceState) : Nat :=
  getCtr st.statCounters DxvkStatCounter.QueuePresentCount % 2^32

/-- Iterates `n` consecutive successful `presentImage` calls starting
from `st`. -/
def presentLoop (st : DeviceState) : Nat → DeviceState
  | 0 => st
  | n + 1 => (presentImage (presentLoop st n) VK_SUCCESS 0).state

/-- Checks that a trace never acquires the queue-access lock while the
counter (stat) lock is held: this is exactly the condition that, at any
point where both locks are held, the queue lock was acquired first.
`q` and `s` say whether the queue lock and the stat lock are held at the
start of the trace. -/
def noLockInversion (q s : Bool) : List DeviceEvent → Bool
  | [] => true
  | DeviceEvent.acquireQueueLock :: rest => !s && noLockInversion true s rest
  | DeviceEvent.releaseQueueLock :: rest => noLockInversion false s rest
  | DeviceEvent.acquireStatLock :: rest => noLockInversion q true rest
  | DeviceEvent.releaseStatLock :: rest => noLockInversion q false rest
  | _ :: rest => noLockInversion q s rest

/-- Recognizes the hardware-submission event regardless of the
semaphore payloads. -/
def isHwSubmit : DeviceEvent → Bool
  | DeviceEvent.hwSubmit _ _ => true
  | _ => false

/-- Reading a counter right after adding to it yields the 64-bit sum. -/
theorem getCtr_addCtr (c : DxvkStatCounters) (ctr : DxvkStatCounter) (n : Nat) :
    getCtr (addCtr c ctr n) ctr = (getCtr c ctr + n) % 2^64 := by
  cases ctr <;> rfl

/-- After `n` successful presents from the initial state, the
`QueuePresentCount` accumulator holds `n % 2^64`. -/
theorem presentLoop_counter (n : Nat) :
    getCtr (presentLoop initialDeviceState n).statCounters
      DxvkStatCounter.QueuePresentCount = n % 2^64 := by
  induction n with
  | zero => rfl
  | succ n ih =>
    have h2 : (2:Nat)^64 = 18446744073709551616 := by norm_num
    simp only [presentLoop, presentImage, ne_eq, not_true_eq_false, if_false,
      reduceIte, getCtr_addCtr, ih]
    omega

/-- C10: `getShaderPipelineStages` always contains the compute, vertex
and fragment stage bits; it contains the geometry bit iff the
geometry-shader feature is enabled, both tessellation bits iff the
tessellation-shader feature is enabled, and never any bit outside those
six. -/
theorem claim_C10 (f : DxvkDeviceFeatures) :
    getShaderPipelineStages f &&& VK_PIPELINE_STAGE_COMPUTE_SHADER_BIT =
      VK_PIPELINE_STAGE_COMPUTE_SHADER_BIT ∧
    getShaderPipelineStages f &&& VK_PIPELINE_STAGE_VERTEX_SHADER_BIT =
      VK_PIPELINE_STAGE_VERTEX_SHADER_BIT ∧
    getShaderPipelineStages f &&& VK_PIPELINE_STAGE_FRAGMENT_SHADER_BIT =
      VK_PIPELINE_STAGE_FRAGMENT_SHADER_BIT ∧
    (getShaderPipelineStages f &&& VK_PIPELINE_STAGE_GEOMETRY_SHADER_BIT =
      VK_PIPELINE_STAGE_GEOMETRY_SHADER_BIT ↔ f.geometryShader = true) ∧
    ((getShaderPipelineStages f &&& VK_PIPELINE_STAGE_TESSELLATION_CONTROL_SHADER_BIT =
        VK_PIPELINE_STAGE_TESSELLATION_CONTROL_SHADER_BIT ∧
      getShaderPipelineStages f &&& VK_PIPELINE_STAGE_TESSELLATION_EVALUATION_SHADER_BIT =
        VK_PIPELINE_STAGE_TESSELLATION_EVALUATION_SHADER_BIT) ↔
      f.tessellationShader = true) ∧
    getShaderPipelineStages f &&&
      (VK_PIPELINE_STAGE_COMPUTE_SHADER_BIT |||
       VK_PIPELINE_STAGE_VERTEX_SHADER_BIT |||
       VK_PIPELINE_STAGE_FRAGMENT_SHADER_BIT |||
       VK_PIPELINE_STAGE_GEOMETRY_SHADER_BIT |||
       VK_PIPELINE_STAGE_TESSELLATION_CONTROL_SHADER_BIT |||
       VK_PIPELINE_STAGE_TESSELLATION_EVALUATION_SHADER_BIT) =
      getShaderPipelineStages f := by
  obtain ⟨g, t⟩ := f
  cases g <;> cases t <;> decide

/-- C10 witness: the property evaluated at the feature set with only the
geometry shader enabled. -/
theorem claim_C10_witness :
    getShaderPipelineStages ⟨true, false⟩ &&& VK_PIPELINE_STAGE_COMPUTE_SHADER_BIT =
      VK_PIPELINE_STAGE_COMPUTE_SHADER_BIT ∧
    getShaderPipelineStages ⟨true, false⟩ &&& VK_PIPELINE_STAGE_VERTEX_SHADER_BIT =
      VK_PIPELINE_STAGE_VERTEX_SHADER_BIT ∧
    getShaderPipelineStages ⟨true, false⟩ &&& VK_PIPELINE_STAGE_FRAGMENT_SHADER_BIT =
      VK_PIPELINE_STAGE_FRAGMENT_SHADER_BIT ∧
    (getShaderPipelineStages ⟨true, false⟩ &&& VK_PIPELINE_STAGE_GEOMETRY_SHADER_BIT =
      VK_PIPELINE_STAGE_GEOMETRY_SHADER_BIT ↔ (true : Bool) = true) ∧
    ((getShaderPipelineStages ⟨true, false⟩ &&& VK_PIPELINE_STAGE_TESSELLATION_CONTROL_SHADER_BIT =
        VK_PIPELINE_STAGE_TESSELLATION_CONTROL_SHADER_BIT ∧
      getShaderPipelineStages ⟨true, false⟩ &&& VK_PIPELINE_STAGE_TESSELLATION_EVALUATION_SHADER_BIT =
        VK_PIPELINE_STAGE_TESSELLATION_EVALUATION_SHADER_BIT) ↔
      (false : Bool) = true) ∧
    getShaderPipelineStages ⟨true, false⟩ &&&
      (VK_PIPELINE_STAGE_COMPUTE_SHADER_BIT |||
       VK_PIPELINE_STAGE_VERTEX_SHADER_BIT |||
       VK_PIPELINE_STAGE_FRAGMENT_SHADER_BIT |||
       VK_PIPELINE_STAGE_GEOMETRY_SHADER_BIT |||
       VK_PIPELINE_STAGE_TESSELLATION_CONTROL_SHADER_BIT |||
       VK_PIPELINE_STAGE_TESSELLATION_EVALUATION_SHADER_BIT) =
      getShaderPipelineStages ⟨true, false⟩ :=
  claim_C10 ⟨true, false⟩

/-- C2: under the invariant that every buffer in the staging recycler
has exactly the standard size (the invariant `recycleStagingBuffer`
maintains), `allocStagingBuffer size` returns a buffer of size exactly
`DefaultStagingBufferSize` when `size` is at or below the threshold
(recycled or fresh, thanks to the `max(size, threshold)` floor), and of
size exactly `size` when it exceeds the threshold. -/
theorem claim_C2 (pool : List DxvkStagingBuffer) (size : Nat)
    (hinv : ∀ b ∈ pool, b.size = DefaultStagingBufferSize) :
    (size ≤ DefaultStagingBufferSize →
      (allocStagingBuffer pool size).2.size = DefaultStagingBufferSize) ∧
    (DefaultStagingBufferSize < size →
      (allocStagingBuffer pool size).2.size = size) := by
  constructor
  · intro h
    unfold allocStagingBuffer
    rw [if_pos h]
    cases pool with
    | nil =>
      show (freshStagingBuffer size).size = DefaultStagingBufferSize
      rw [freshStagingBuffer]
      rcases lt_or_eq_of_le h with h2 | h2
      · simp [h2]
      · simp [h2]
    | cons b rest =>
      exact hinv b (List.mem_cons_self b rest)
  · intro h
    unfold allocStagingBuffer
    rw [if_neg (not_le.mpr h)]
    show (freshStagingBuffer size).size = size
    rw [freshStagingBuffer]
    simp [Nat.not_lt.mpr (Nat.le_of_lt h)]

/-- C2 witness: a 64-byte request served from a recycler holding one
standard-size buffer yields a 65536-byte buffer; a 100000-byte request
from an empty recycler yields a 100000-byte buffer. -/
theorem claim_C2_witness :
    (allocStagingBuffer [⟨65536, true⟩] 64).2.size = 65536 ∧
    (allocStagingBuffer [] 100000).2.size = 100000 := by
  constructor
  · exact (claim_C2 [⟨65536, true⟩] 64 (by decide)).1 (by decide)
  · exact (claim_C2 [] 100000 (by decide)).2 (by decide)

/-- C3: the code of `recycleStagingBuffer` inserts a standard-size
buffer into the recycler and only then resets it: at the failing input
(a non-empty buffer of exactly `DefaultStagingBufferSize` bytes) the
event trace records the pool insertion strictly before the reset, so
the buffer is made available for retrieval before being reset —
contradicting the claim that the reset happens first.  The membership
part of the claim does hold: the recycler gains the buffer exactly when
its size equals the threshold, and an oversized buffer leaves it
unchanged. -/
theorem claim_C3_code_order :
    (recycleStagingBuffer [] ⟨DefaultStagingBufferSize, false⟩).2 =
      [DeviceEvent.stagingReturnToPool, DeviceEvent.stagingReset] ∧
    (recycleStagingBuffer [] ⟨DefaultStagingBufferSize, false⟩).1 =
      [⟨DefaultStagingBufferSize, true⟩] ∧
    (recycleStagingBuffer [] ⟨DefaultStagingBufferSize + 1, false⟩).1 = [] := by
  decide

/-- C4: `presentImage` returns the presenter's status unchanged in every
case; on a non-success status the device state (hence the
`QueuePresentCount` counter) is untouched and the counter lock is never
taken, while on success the counter is incremented by exactly 1 (below
the 64-bit wrap) and the increment happens between the counter-lock
acquire and release, inside the queue-lock critical section. -/
theorem claim_C4 (st : DeviceState) (status : VkResult) (semaphore : Nat) :
    (presentImage st status semaphore).returnedStatus = some status ∧
    (status ≠ VK_SUCCESS →
      (presentImage st status semaphore).state = st ∧
      (presentImage st status semaphore).trace =
        [DeviceEvent.acquireQueueLock, DeviceEvent.hwPresent semaphore,
         DeviceEvent.releaseQueueLock]) ∧
    (status = VK_SUCCESS →
      (getCtr st.statCounters DxvkStatCounter.QueuePresentCount + 1 < 2^64 →
        getCtr (presentImage st status semaphore).state.statCounters
            DxvkStatCounter.QueuePresentCount =
          getCtr st.statCounters DxvkStatCounter.QueuePresentCount + 1) ∧
      (presentImage st status semaphore).trace =
        [DeviceEvent.acquireQueueLock, DeviceEvent.hwPresent semaphore,
         DeviceEvent.acquireStatLock,
         DeviceEvent.addCounter DxvkStatCounter.QueuePresentCount 1,
         DeviceEvent.releaseStatLock, DeviceEvent.releaseQueueLock]) := by
  by_cases hs : status = VK_SUCCESS
  · subst hs
    refine ⟨rfl, fun h => absurd rfl h, fun _ => ⟨fun hlt => ?_, rfl⟩⟩
    show getCtr (addCtr st.statCounters DxvkStatCounter.QueuePresentCount 1)
        DxvkStatCounter.QueuePresentCount = _
    rw [getCtr_addCtr]
    exact Nat.mod_eq_of_lt hlt
  · exact ⟨by simp [presentImage, hs], fun _ => ⟨by simp [presentImage, hs],
      by simp [presentImage, hs]⟩, fun h => absurd h hs⟩

/-- C4 witness: at the initial state, a failing present (out-of-date
status) returns that status and leaves the state unchanged, and a
successful present brings the counter from 0 to 1. -/
theorem claim_C4_witness :
    (presentImage initialDeviceState VK_ERROR_OUT_OF_DATE_KHR 0).returnedStatus =
      some VK_ERROR_OUT_OF_DATE_KHR ∧
    (presentImage initialDeviceState VK_ERROR_OUT_OF_DATE_KHR 0).state =
      initialDeviceState ∧
    getCtr (presentImage initialDeviceState VK_SUCCESS 0).state.statCounters
      DxvkStatCounter.QueuePresentCount = 1 := by
  refine ⟨(claim_C4 initialDeviceState VK_ERROR_OUT_OF_DATE_KHR 0).1,
    (((claim_C4 initialDeviceState VK_ERROR_OUT_OF_DATE_KHR 0).2.1) (by decide)).1, ?_⟩
  exact ((claim_C4 initialDeviceState VK_SUCCESS 0).2.2 rfl).1 (by decide)

/-- C5: `submitCommandList` always performs, in this order: queue-lock
acquire, stat-lock acquire, merge of the list's counters, increment of
`QueueSubmitCount` by 1, the hardware submission with the given
wait/signal semaphores, then the lock releases — the outcome-dependent
tail (tracker hand-off or error log) only comes after; and the
resulting `QueueSubmitCount` is the old total plus the list's own count
plus exactly 1 (below the 64-bit wrap), regardless of the submission
outcome. -/
theorem claim_C5 (st : DeviceState) (cl : DxvkCommandList) (waitSync wakeSync : Nat)
    (h : getCtr st.statCounters DxvkStatCounter.QueueSubmitCount +
      getCtr cl.statCounters DxvkStatCounter.QueueSubmitCount + 1 < 2^64) :
    (submitCommandList st cl waitSync wakeSync).trace =
      [DeviceEvent.acquireQueueLock, DeviceEvent.acquireStatLock,
       DeviceEvent.mergeCounters,
       DeviceEvent.addCounter DxvkStatCounter.QueueSubmitCount 1,
       DeviceEvent.hwSubmit waitSync wakeSync,
       DeviceEvent.releaseStatLock, DeviceEvent.releaseQueueLock] ++
      (if cl.submitResult = VK_SUCCESS then [DeviceEvent.trackSubmission]
       else [DeviceEvent.logError cl.submitResult]) ∧
    getCtr (submitCommandList st cl waitSync wakeSync).state.statCounters
        DxvkStatCounter.QueueSubmitCount =
      getCtr st.statCounters DxvkStatCounter.QueueSubmitCount +
      getCtr cl.statCounters DxvkStatCounter.QueueSubmitCount + 1 := by
  have hctr : getCtr (addCtr (mergeCtrs st.statCounters cl.statCounters)
      DxvkStatCounter.QueueSubmitCount 1) DxvkStatCounter.QueueSubmitCount =
      getCtr st.statCounters DxvkStatCounter.QueueSubmitCount +
      getCtr cl.statCounters DxvkStatCounter.QueueSubmitCount + 1 := by
    rw [getCtr_addCtr]
    have h2 : (2:Nat)^64 = 18446744073709551616 := by norm_num
    simp only [getCtr, mergeCtrs] at h ⊢
    omega
  by_cases hs : cl.submitResult = VK_SUCCESS
  · exact ⟨by simp [submitCommandList, hs], by simp [submitCommandList, hs]; exact hctr⟩
  · exact ⟨by simp [submitCommandList, hs], by simp [submitCommandList, hs]; exact hctr⟩

/-- C5 witness: submitting a fresh command list (successful hardware
submission) from the initial state produces exactly the expected event
order and a submission count of 1. -/
theorem claim_C5_witness :
    (submitCommandList initialDeviceState freshCommandList 7 9).trace =
      [DeviceEvent.acquireQueueLock, DeviceEvent.acquireStatLock,
       DeviceEvent.mergeCounters,
       DeviceEvent.addCounter DxvkStatCounter.QueueSubmitCount 1,
       DeviceEvent.hwSubmit 7 9,
       DeviceEvent.releaseStatLock, DeviceEvent.releaseQueueLock] ++
      (if freshCommandList.submitResult = VK_SUCCESS then [DeviceEvent.trackSubmission]
       else [DeviceEvent.logError freshCommandList.submitResult]) ∧
    getCtr (submitCommandList initialDeviceState freshCommandList 7 9).state.statCounters
        DxvkStatCounter.QueueSubmitCount =
      getCtr initialDeviceState.statCounters DxvkStatCounter.QueueSubmitCount +
      getCtr freshCommandList.statCounters DxvkStatCounter.QueueSubmitCount + 1 :=
  claim_C5 initialDeviceState freshCommandList 7 9 (by decide)

/-- C6: `submitCommandList` hands the list to the submission queue
(completion tracker) iff the hardware submission succeeded; on a
non-success status the error is logged with that status, the tracked
set is unchanged, and the command-list recycler is unchanged (the list
is not recycled). -/
theorem claim_C6 (st : DeviceState) (cl : DxvkCommandList) (waitSync wakeSync : Nat) :
    (DeviceEvent.trackSubmission ∈ (submitCommandList st cl waitSync wakeSync).trace ↔
      cl.submitResult = VK_SUCCESS) ∧
    (cl.submitResult = VK_SUCCESS →
      (submitCommandList st cl waitSync wakeSync).state.trackedSubmissions =
        cl :: st.trackedSubmissions) ∧
    (cl.submitResult ≠ VK_SUCCESS →
      DeviceEvent.logError cl.submitResult ∈
        (submitCommandList st cl waitSync wakeSync).trace ∧
      (submitCommandList st cl waitSync wakeSync).state.trackedSubmissions =
        st.trackedSubmissions ∧
      (submitCommandList st cl waitSync wakeSync).state.recycledCommandLists =
        st.recycledCommandLists) := by
  by_cases hs : cl.submitResult = VK_SUCCESS
  · refine ⟨?_, fun _ => by simp [submitCommandList, hs], fun h => absurd hs h⟩
    simp [submitCommandList, hs]
  · refine ⟨?_, fun h => absurd h hs, fun _ =>
      ⟨by simp [submitCommandList, hs], by simp [submitCommandList, hs],
       by simp [submitCommandList, hs]⟩⟩
    simp [submitCommandList, hs]

/-- C6 witness: a successful submission from the initial state is
tracked; a device-lost submission logs the error and leaves both the
tracked set and the command-list recycler empty. -/
theorem claim_C6_witness :
    (DeviceEvent.trackSubmission ∈
      (submitCommandList initialDeviceState freshCommandList 0 0).trace ↔
      freshCommandList.submitResult = VK_SUCCESS) ∧
    (submitCommandList initialDeviceState freshCommandList 0 0).state.trackedSubmissions =
      freshCommandList :: initialDeviceState.trackedSubmissions ∧
    DeviceEvent.logError VK_ERROR_DEVICE_LOST ∈
      (submitCommandList initialDeviceState ⟨zeroCtrs, VK_ERROR_DEVICE_LOST, true⟩ 0 0).trace ∧
    (submitCommandList initialDeviceState
      ⟨zeroCtrs, VK_ERROR_DEVICE_LOST, true⟩ 0 0).state.trackedSubmissions = [] := by
  refine ⟨(claim_C6 initialDeviceState freshCommandList 0 0).1,
    (claim_C6 initialDeviceState freshCommandList 0 0).2.1 rfl, ?_, ?_⟩
  · exact ((claim_C6 initialDeviceState ⟨zeroCtrs, VK_ERROR_DEVICE_LOST, true⟩ 0 0).2.2
      (by decide)).1
  · exact ((claim_C6 initialDeviceState ⟨zeroCtrs, VK_ERROR_DEVICE_LOST, true⟩ 0 0).2.2
      (by decide)).2.1

/-- C7: in every execution of `submitCommandList`, `presentImage` and
`getStatCounters` (the device operations that touch the stat lock), the
queue-access lock is never acquired while the counter lock is held —
equivalently, whenever both locks are held the queue lock was acquired
first; the reverse acquisition order never occurs. -/
theorem claim_C7 (st : DeviceState) (cl : DxvkCommandList) (status : VkResult)
    (waitSync wakeSync semaphore memAllocated memUsed gfx cmp : Nat) :
    noLockInversion false false (submitCommandList st cl waitSync wakeSync).trace = true ∧
    noLockInversion false false (presentImage st status semaphore).trace = true ∧
    noLockInversion false false
      (getStatCounters st memAllocated memUsed gfx cmp).2 = true := by
  refine ⟨?_, ?_, rfl⟩
  · obtain ⟨cnt, res, rs⟩ := cl
    cases res <;> rfl
  · cases status <;> rfl

/-- C8: `createCommandList` and `createDescriptorPool` retrieve the
pooled instance whenever the recycler is non-empty and construct a
fresh object exactly when it is empty (both functions are total, so
emptiness is never an error); under the invariant that pooled instances
are in the reset reusable state — established outside this file's source
by the completion tracker resetting lists before `recycleCommandList`
and by contexts resetting descriptor pools — the retrieved instance is
reset. -/
theorem claim_C8 (cmdPool : List DxvkCommandList) (dpPool : List DxvkDescriptorPool)
    (hc : ∀ c ∈ cmdPool, c.isReset = true)
    (hd : ∀ p ∈ dpPool, p.isReset = true) :
    (∀ c rest, cmdPool = c :: rest →
      createCommandList cmdPool = (rest, c) ∧ c.isReset = true) ∧
    (cmdPool = [] → createCommandList cmdPool = ([], freshCommandList)) ∧
    (∀ p rest, dpPool = p :: rest →
      createDescriptorPool dpPool = (rest, p) ∧ p.isReset = true) ∧
    (dpPool = [] → createDescriptorPool dpPool = ([], freshDescriptorPool)) := by
  refine ⟨fun c rest hp => ?_, fun hp => by rw [hp]; rfl,
    fun p rest hp => ?_, fun hp => by rw [hp]; rfl⟩
  · subst hp
    exact ⟨rfl, hc c (List.mem_cons_self c rest)⟩
  · subst hp
    exact ⟨rfl, hd p (List.mem_cons_self p rest)⟩

/-- C8 witness: with one reset instance pooled, creation retrieves it;
with empty recyclers, creation constructs fresh objects. -/
theorem claim_C8_witness :
    createCommandList [freshCommandList] = ([], freshCommandList) ∧
    createCommandList [] = ([], freshCommandList) ∧
    createDescriptorPool [⟨true⟩] = ([], (⟨true⟩ : DxvkDescriptorPool)) ∧
    createDescriptorPool [] = ([], freshDescriptorPool) := by
  have h := claim_C8 [freshCommandList] [⟨true⟩] (by decide) (by decide)
  exact ⟨(h.1 freshCommandList [] rfl).1, (claim_C8 [] [] (by decide) (by decide)).2.1 rfl,
    (h.2.2.1 ⟨true⟩ [] rfl).1, (claim_C8 [] [] (by decide) (by decide)).2.2.2 rfl⟩

/-- C9 counterexample: `getCurrentFrameId` returns the
`QueuePresentCount` accumulator as a `uint32_t`, truncating it modulo
`2^32`.  After exactly `2^32` successful presents the counter holds
`2^32` (the number of successful presents observed so far), but
`getCurrentFrameId` returns 0 — so the frame identifier does not always
equal the counter, and does not increase on the `2^32`-th successful
present. -/
theorem claim_C9_counterexample :
    getCtr (presentLoop initialDeviceState (2^32)).statCounters
      DxvkStatCounter.QueuePresentCount = 2^32 ∧
    getCurrentFrameId (presentLoop initialDeviceState (2^32)) = 0 := by
  constructor
  · rw [presentLoop_counter]
    norm_num
  · rw [getCurrentFrameId, presentLoop_counter]
    norm_num

/-- C9 (amended): `getCurrentFrameId` equals the `QueuePresentCount`
counter reduced modulo `2^32` (the `uint32_t` return width): after `n`
successful presents from the initial state it returns `n % 2^32`, and
in particular exactly `n` — 0 before any present succeeds, increasing
by 1 per successful present — as long as fewer than `2^32` presents
have succeeded. -/
theorem claim_C9_amended (n : Nat) :
    getCurrentFrameId (presentLoop initialDeviceState n) = n % 2^32 ∧
    (n < 2^32 → getCurrentFrameId (presentLoop initialDeviceState n) = n) := by
  have hmain : getCurrentFrameId (presentLoop initialDeviceState n) = n % 2^32 := by
    rw [getCurrentFrameId, presentLoop_counter]
    exact Nat.mod_mod_of_dvd n ⟨2^32, by norm_num⟩
  exact ⟨hmain, fun h => by rw [hmain]; exact Nat.mod_eq_of_lt h⟩

/-- C9 witness: after three successful presents the frame identifier is
exactly 3. -/
theorem claim_C9_witness :
    getCurrentFrameId (presentLoop initialDeviceState 3) = 3 :=
  (claim_C9_amended 3).2 (by norm_num)

/-- C1 counterexample: `submitCommandList` is declared `void`, so the
non-success status of a failed hardware submission is not surfaced to
the caller as the operation's return value: at a command list whose
hardware submission yields `VK_ERROR_DEVICE_LOST`, the operation
returns nothing (`none`), not that status. -/
theorem claim_C1_counterexample :
    (submitCommandList initialDeviceState
      ⟨zeroCtrs, VK_ERROR_DEVICE_LOST, true⟩ 0 0).returnedStatus ≠
      some VK_ERROR_DEVICE_LOST := by
  decide

/-- C1 (amended): `submitCommandList` returns no status to its caller
(the source declares it `void`, so the returned value is always
`none`); the hardware submission is issued exactly once per call — no
internal retry — and a non-success status is consumed internally: it is
logged and only steers whether the list is handed to the completion
tracker. -/
theorem claim_C1_amended (st : DeviceState) (cl : DxvkCommandList)
    (waitSync wakeSync : Nat) :
    (submitCommandList st cl waitSync wakeSync).returnedStatus = none ∧
    ((submitCommandList st cl waitSync wakeSync).trace.countP isHwSubmit = 1) ∧
    (cl.submitResult ≠ VK_SUCCESS →
      DeviceEvent.logError cl.submitResult ∈
        (submitCommandList st cl waitSync wakeSync).trace) := by
  obtain ⟨cnt, res, rs⟩ := cl
  cases res
  case VK_SUCCESS => exact ⟨rfl, rfl, fun h => absurd rfl h⟩
  all_goals exact ⟨rfl, rfl, fun _ => by simp [submitCommandList]⟩

/-- C1 witness: a submission whose hardware call fails with
out-of-device-memory returns nothing to the caller and logs that
status. -/
theorem claim_C1_witness :
    (submitCommandList initialDeviceState
      ⟨zeroCtrs, VK_ERROR_OUT_OF_DEVICE_MEMORY, true⟩ 1 2).returnedStatus = none ∧
    DeviceEvent.logError VK_ERROR_OUT_OF_DEVICE_MEMORY ∈
      (submitCommandList initialDeviceState
        ⟨zeroCtrs, VK_ERROR_OUT_OF_DEVICE_MEMORY, true⟩ 1 2).trace := by
  have h := claim_C1_amended initialDeviceState
    ⟨zeroCtrs, VK_ERROR_OUT_OF_DEVICE_MEMORY, true⟩ 1 2
  exact ⟨h.1, h.2.2 (by decide)⟩

end Dxvk
